import Mathlib

/-!
Verification of the MedicalVoiceAI frontend core: the zustand client state
store (`useAppStore`), the LiveKit event-normalization bridge
(`handleTranscription` / `handleData`), the connect orchestration
(`handleConnect` / `loadLatestSummary` in `App.tsx`) and the REST client
(`apiFetch` / `requestSession` in `lib/api.ts`), shallowly embedded in Lean.

Conventions of the embedding:
- JavaScript `undefined`/`null` field values are modelled as `Option.none`;
  the `??` operator is `Option.getD`.
- `JSON.parse(decoder.decode(payload))` either throws (malformed bytes) or
  yields a value; an inbound class-B body is therefore modelled as
  `Option ParsedMsg`, `none` standing for a payload whose bytes are not
  valid UTF-8 JSON.  The `try`/`catch` of `handleData` is modelled with an
  `Except`-valued inner body and an explicit catch.
- `Date.now()/1000` and `crypto.randomUUID()` are modelled as explicit
  `now` / `fresh` parameters threaded into the handlers.
- Timestamps are modelled as `Nat`; the code only passes them through.
-/

/-- Opaque JSON values carried in class-B payload fields (`arguments`,
`output`); the bridge never inspects their structure, only passes them on. -/
inductive Json where
  | null : Json
  | bool : Bool → Json
  | num : Int → Json
  | str : String → Json
  | arr : List Json → Json
  | obj : List (String × Json) → Json
deriving Repr

/-- `TranscriptEntry` from `types/index.ts`.  The TypeScript type narrows
`speaker` to `"user" | "assistant" | "system"`, but the runtime value fed in
by `handleData` comes from unchecked JSON, so the field is a plain string
here, with validity expressed by `validSpeaker`. -/
structure TranscriptEntry where
  speaker : String
  text : String
  timestamp : Nat
  itemId : String
deriving Repr, DecidableEq

/-- The speaker values admitted by the TypeScript union type. -/
def validSpeaker (s : String) : Bool :=
  s = "user" || s = "assistant" || s = "system"

/-- `ToolEvent` from `types/index.ts`.  `name` is `Option` because
`handleData` passes `parsed.name` through unchecked and it may be absent at
runtime. -/
structure ToolEvent where
  name : Option String
  arguments : Json
  output : Option Json
  timestamp : Nat
  callId : Option String
deriving Repr

/-- `SummaryRecord` from `types/index.ts` (optional fields kept opaque). -/
structure SummaryRecord where
  id : String
  summary_text : String
  preferences : Option Json := none
  appointments_in_call : Option Json := none
  cost_breakdown : Option Json := none
  action_items : Option (List String) := none
  created_at : String
deriving Repr

/-- The `AppState` record of the zustand store (`lib/store.ts`). -/
structure AppState where
  livekitUrl : Option String
  token : Option String
  identity : Option String
  roomName : Option String
  callerPhone : Option String
  connecting : Bool
  transcripts : List TranscriptEntry
  toolEvents : List ToolEvent
  summary : Option SummaryRecord
deriving Repr

/-- The store's initial state: all identity fields null, `connecting`
false, empty logs, no summary. -/
def initialState : AppState :=
  { livekitUrl := none
    token := none
    identity := none
    roomName := none
    callerPhone := none
    connecting := false
    transcripts := []
    toolEvents := []
    summary := none }

/-- The parameter record taken by `setSession`. -/
structure SessionParams where
  token : String
  identity : String
  roomName : String
  livekitUrl : String
  phone : String
deriving Repr, DecidableEq

/-- `setLivekitUrl` — zustand `set({ livekitUrl: url })` merges the patch
into the current state, leaving every other field unchanged. -/
def setLivekitUrl (st : AppState) (url : String) : AppState :=
  { st with livekitUrl := some url }

/-- `beginConnect` — `set({ connecting: true })`. -/
def beginConnect (st : AppState) : AppState :=
  { st with connecting := true }

/-- `setSession` — replaces the whole session, clears `connecting`, and
resets transcripts, toolEvents and summary. -/
def setSession (st : AppState) (p : SessionParams) : AppState :=
  { st with
      token := some p.token
      identity := some p.identity
      roomName := some p.roomName
      livekitUrl := some p.livekitUrl
      callerPhone := some p.phone
      connecting := false
      transcripts := []
      toolEvents := []
      summary := none }

/-- `clearSession` — nulls the identity fields and resets the logs.  Note
that the source patch does NOT mention `livekitUrl`, so it survives. -/
def clearSession (st : AppState) : AppState :=
  { st with
      token := none
      identity := none
      roomName := none
      callerPhone := none
      transcripts := []
      toolEvents := []
      summary := none
      connecting := false }

/-- `addTranscript` — `set(state => ({transcripts: [...state.transcripts, entry]}))`. -/
def addTranscript (st : AppState) (e : TranscriptEntry) : AppState :=
  { st with transcripts := st.transcripts ++ [e] }

/-- `addToolEvent` — appends to the tool-event log. -/
def addToolEvent (st : AppState) (e : ToolEvent) : AppState :=
  { st with toolEvents := st.toolEvents ++ [e] }

/-- `setSummary` — `set({ summary: record })`. -/
def setSummary (st : AppState) (r : Option SummaryRecord) : AppState :=
  { st with summary := r }

/-! ## Event-normalization bridge (`hooks/LivekitBridge.tsx`) -/

/-- An inbound class-A transcription segment (`TranscriptionSegment`):
`text`, `participant?.identity`, `startTime` and `id` may each be absent. -/
structure Segment where
  text : Option String := none
  participantIdentity : Option String := none
  startTime : Option Nat := none
  id : Option String := none
deriving Repr, DecidableEq

/-- The fields of a successfully parsed class-B JSON body that `handleData`
reads.  Absent-or-null JSON fields are `none`. -/
structure ParsedMsg where
  type : Option String := none
  speaker : Option String := none
  text : Option String := none
  timestamp : Option Nat := none
  item_id : Option String := none
  name : Option String := none
  arguments : Option Json := none
  output : Option Json := none
  call_id : Option String := none
deriving Repr

/-- `handleTranscription`: drop the segment when `text` is absent or empty
(`!segment?.text`); otherwise append a transcript entry with speaker
`"user"` iff the segment's participant identity equals the local
participant's identity. -/
def handleTranscription (now : Nat) (fresh : String) (localIdentity : String)
    (seg : Segment) (st : AppState) : AppState :=
  match seg.text with
  | none => st
  | some t =>
      if t = "" then st
      else
        addTranscript st
          { speaker :=
              if seg.participantIdentity = some localIdentity then "user" else "assistant"
            text := t
            timestamp := seg.startTime.getD now
            itemId := seg.id.getD fresh }

/-- `topic?.startsWith("app.")` — false when the topic is absent.
`startsWith` is modelled character-wise (`List.isPrefixOf` over the
strings' character lists), which agrees with the JavaScript method. -/
def topicIsApp (topic : Option String) : Bool :=
  match topic with
  | none => false
  | some t => List.isPrefixOf "app.".data t.data

/-- The body of `handleData`'s `try` block: `JSON.parse` throws on a
malformed payload (`body = none`); on success the two `if` branches
dispatch on `parsed.type`. -/
def parseAndDispatch (now : Nat) (fresh : String) (body : Option ParsedMsg)
    (st : AppState) : Except String AppState :=
  match body with
  | none => Except.error "SyntaxError: JSON.parse"
  | some parsed =>
      let st1 :=
        if parsed.type = some "transcript" then
          addTranscript st
            { speaker := parsed.speaker.getD "assistant"
              text := parsed.text.getD ""
              timestamp := parsed.timestamp.getD now
              itemId := parsed.item_id.getD fresh }
        else st
      let st2 :=
        if parsed.type = some "tool" then
          addToolEvent st1
            { name := parsed.name
              arguments := parsed.arguments.getD (Json.obj [])
              output := parsed.output
              timestamp := parsed.timestamp.getD now
              callId := parsed.call_id }
        else st1
      Except.ok st2

/-- `handleData`: return early unless the topic starts with `"app."`; then
run the parse-and-dispatch body, catching any parse error (the `catch`
only logs a warning and leaves the store untouched). -/
def handleData (now : Nat) (fresh : String) (topic : Option String)
    (body : Option ParsedMsg) (st : AppState) : AppState :=
  if topicIsApp topic then
    match parseAndDispatch now fresh body st with
    | Except.ok st2 => st2
    | Except.error _ => st
  else st

/-! ## Session client (`lib/api.ts`) -/

/-- `SessionResponse` from `lib/api.ts`. -/
structure SessionResponse where
  room_name : String
  identity : String
  token : String
  expires_at : Nat
  livekit_url : String
deriving Repr, DecidableEq

/-- An HTTP response as `apiFetch` observes it: a status code and a parsed
body of the expected type. -/
structure HttpResponse (α : Type) where
  status : Nat
  body : α
deriving Repr

/-- `Response.ok` in the fetch API: status in the 2xx range. -/
def responseOk (status : Nat) : Bool :=
  200 ≤ status && status ≤ 299

/-- `apiFetch`: on a non-ok status it throws
`` new Error(`API error ${response.status}`) `` (re-raised unchanged by the
`catch`); otherwise it returns the decoded JSON body. -/
def apiFetch {α : Type} (response : HttpResponse α) : Except String α :=
  if responseOk response.status then Except.ok response.body
  else Except.error ("API error " ++ toString response.status)

/-- `requestSession` delegates to `apiFetch` on `POST /api/session`. -/
def requestSession (response : HttpResponse SessionResponse) :
    Except String SessionResponse :=
  apiFetch response

/-! ## Connect orchestration (`App.tsx`) -/

/-- `String.prototype.trim`, modelled character-wise: strip leading and
trailing whitespace. -/
def jsTrim (s : String) : String :=
  String.mk
    (((s.data.dropWhile Char.isWhitespace).reverse.dropWhile Char.isWhitespace).reverse)

/-- Result of the `handleConnect` flow: final store plus the `error` React
state surfaced to the form (`none` = `setError(null)`). -/
structure ConnectResult where
  store : AppState
  uiError : Option String
deriving Repr

/-- `loadLatestSummary`: no-op on an empty phone; fetch failures are caught
locally (only a warning is logged), so a failing fetch leaves the store
untouched; a successful fetch stores `records?.[0] ?? null`. -/
def loadLatestSummary (phone : String)
    (fetchResult : Except String (List SummaryRecord)) (st : AppState) : AppState :=
  if phone = "" then st
  else
    match fetchResult with
    | Except.ok records => setSummary st records.head?
    | Except.error _ => st

/-- `handleConnect`: validate the form, `beginConnect`, request a session
(failure caught: surface the error message and `clearSession`), then
`setSession` and `loadLatestSummary`.  `sessionResult` / `summariesResult`
stand for the outcomes of the two awaited network calls. -/
def handleConnect (displayName phoneNumber roomName : String)
    (sessionResult : Except String SessionResponse)
    (summariesResult : Except String (List SummaryRecord))
    (st : AppState) : ConnectResult :=
  if jsTrim displayName = "" || jsTrim phoneNumber = "" then
    { store := st, uiError := some "Display name and phone are required" }
  else
    let st1 := beginConnect st
    match sessionResult with
    | Except.error msg => { store := clearSession st1, uiError := some msg }
    | Except.ok session =>
        let st2 := setSession st1
          { token := session.token
            identity := session.identity
            roomName := session.room_name
            livekitUrl := session.livekit_url
            phone := jsTrim phoneNumber }
        let st3 := loadLatestSummary (jsTrim phoneNumber) summariesResult st2
        { store := st3, uiError := none }

/-! ## Reachability: the store's mutation operations as a transition system -/

/-- One invocation of a store mutation operation. -/
inductive Op where
  | setLivekitUrl (url : String)
  | beginConnect
  | setSession (p : SessionParams)
  | clearSession
  | addTranscript (e : TranscriptEntry)
  | addToolEvent (e : ToolEvent)
  | setSummary (r : Option SummaryRecord)

/-- Apply one store operation. -/
def applyOp (st : AppState) : Op → AppState
  | Op.setLivekitUrl url => setLivekitUrl st url
  | Op.beginConnect => beginConnect st
  | Op.setSession p => setSession st p
  | Op.clearSession => clearSession st
  | Op.addTranscript e => addTranscript st e
  | Op.addToolEvent e => addToolEvent st e
  | Op.setSummary r => setSummary st r

/-- Run a sequence of store operations from a state. -/
def runOps (st : AppState) (ops : List Op) : AppState :=
  ops.foldl applyOp st

/-! ## The bridge as a transition system over inbound messages -/

/-- Per-message environment: wall clock (`Date.now()/1000`), the UUID
`crypto.randomUUID()` would generate, and the local participant identity. -/
structure Env where
  now : Nat
  fresh : String
  localIdentity : String
deriving Repr

/-- An inbound realtime message: a class-A transcription segment or a
class-B data packet (topic plus parse outcome of its bytes). -/
inductive InMsg where
  | classA (seg : Segment)
  | classB (topic : Option String) (body : Option ParsedMsg)

/-- Dispatch one inbound message to the matching bridge handler. -/
def handleMsg (env : Env) (m : InMsg) (st : AppState) : AppState :=
  match m with
  | InMsg.classA seg => handleTranscription env.now env.fresh env.localIdentity seg st
  | InMsg.classB topic body => handleData env.now env.fresh topic body st

/-- Process a sequence of inbound messages in delivery order. -/
def runMsgs (st : AppState) (msgs : List (Env × InMsg)) : AppState :=
  msgs.foldl (fun s em => handleMsg em.1 em.2 s) st

/-- A message is *valid* when the bridge appends an entry for it: a class-A
segment with non-empty text, or a class-B packet with an `"app."` topic,
well-formed JSON, and type `"transcript"` or `"tool"`. -/
def validMsg (m : InMsg) : Bool :=
  match m with
  | InMsg.classA seg =>
      match seg.text with
      | none => false
      | some t => !(t = "")
  | InMsg.classB topic body =>
      topicIsApp topic &&
        match body with
        | none => false
        | some parsed =>
            decide (parsed.type = some "transcript") ||
              decide (parsed.type = some "tool")

/-- The transcript entries (zero or one) that one message makes the bridge
append, in the environment `env`. -/
def msgTranscriptEntries (env : Env) (m : InMsg) : List TranscriptEntry :=
  match m with
  | InMsg.classA seg =>
      match seg.text with
      | none => []
      | some t =>
          if t = "" then []
          else
            [{ speaker :=
                 if seg.participantIdentity = some env.localIdentity then "user"
                 else "assistant"
               text := t
               timestamp := seg.startTime.getD env.now
               itemId := seg.id.getD env.fresh }]
  | InMsg.classB topic body =>
      if topicIsApp topic then
        match body with
        | none => []
        | some parsed =>
            if parsed.type = some "transcript" then
              [{ speaker := parsed.speaker.getD "assistant"
                 text := parsed.text.getD ""
                 timestamp := parsed.timestamp.getD env.now
                 itemId := parsed.item_id.getD env.fresh }]
            else []
      else []

/-- The tool events (zero or one) that one message makes the bridge append. -/
def msgToolEntries (env : Env) (m : InMsg) : List ToolEvent :=
  match m with
  | InMsg.classA _ => []
  | InMsg.classB topic body =>
      if topicIsApp topic then
        match body with
        | none => []
        | some parsed =>
            if parsed.type = some "tool" then
              [{ name := parsed.name
                 arguments := parsed.arguments.getD (Json.obj [])
                 output := parsed.output
                 timestamp := parsed.timestamp.getD env.now
                 callId := parsed.call_id }]
            else []
      else []

/-- Transcript entries produced by a message sequence, in delivery order. -/
def collectTranscripts : List (Env × InMsg) → List TranscriptEntry
  | [] => []
  | em :: rest => msgTranscriptEntries em.1 em.2 ++ collectTranscripts rest

/-- Tool events produced by a message sequence, in delivery order. -/
def collectToolEvents : List (Env × InMsg) → List ToolEvent
  | [] => []
  | em :: rest => msgToolEntries em.1 em.2 ++ collectToolEvents rest

/-- Each bridge handler only appends: one inbound message turns the store
`st` into `st` with `msgTranscriptEntries` / `msgToolEntries` appended to
the two logs, and no other field changed. -/
theorem handleMsg_eq (env : Env) (m : InMsg) (st : AppState) :
    handleMsg env m st =
      { st with
          transcripts := st.transcripts ++ msgTranscriptEntries env m
          toolEvents := st.toolEvents ++ msgToolEntries env m } := by
  cases m with
  | classA seg =>
      cases h : seg.text with
      | none =>
          simp [handleMsg, handleTranscription, msgTranscriptEntries, msgToolEntries, h]
      | some t =>
          by_cases ht : t = "" <;>
            simp [handleMsg, handleTranscription, msgTranscriptEntries, msgToolEntries,
              h, ht, addTranscript]
  | classB topic body =>
      by_cases htop : topicIsApp topic
      · cases body with
        | none =>
            simp [handleMsg, handleData, parseAndDispatch, msgTranscriptEntries,
              msgToolEntries, htop]
        | some parsed =>
            by_cases h1 : parsed.type = some "transcript"
            · have h2 : ¬ parsed.type = some "tool" := by simp [h1]
              simp [handleMsg, handleData, parseAndDispatch, msgTranscriptEntries,
                msgToolEntries, htop, h1, h2, addTranscript, addToolEvent]
            · by_cases h2 : parsed.type = some "tool" <;>
                simp [handleMsg, handleData, parseAndDispatch, msgTranscriptEntries,
                  msgToolEntries, htop, h1, h2, addTranscript, addToolEvent]
      · simp [handleMsg, handleData, msgTranscriptEntries, msgToolEntries, htop]

/-- Running a message sequence appends the collected entries to both logs
and leaves every other store field unchanged. -/
theorem runMsgs_eq (msgs : List (Env × InMsg)) (st : AppState) :
    runMsgs st msgs =
      { st with
          transcripts := st.transcripts ++ collectTranscripts msgs
          toolEvents := st.toolEvents ++ collectToolEvents msgs } := by
  induction msgs generalizing st with
  | nil => simp [runMsgs, collectTranscripts, collectToolEvents]
  | cons em rest ih =>
      have step : runMsgs st (em :: rest) = runMsgs (handleMsg em.1 em.2 st) rest := rfl
      rw [step, ih, handleMsg_eq]
      simp [collectTranscripts, collectToolEvents]

/-- A valid message produces exactly one log entry (in exactly one of the
two logs). -/
theorem validMsg_one_entry (env : Env) (m : InMsg) (h : validMsg m = true) :
    (msgTranscriptEntries env m).length + (msgToolEntries env m).length = 1 := by
  cases m with
  | classA seg =>
      cases ht : seg.text with
      | none => simp [validMsg, ht] at h
      | some t =>
          have hne : ¬ t = "" := by
            simp [validMsg, ht] at h
            exact h
          simp [msgTranscriptEntries, msgToolEntries, ht, hne]
  | classB topic body =>
      have htop : topicIsApp topic = true := by
        cases hb : topicIsApp topic <;> simp [validMsg, hb] at h ⊢
      cases body with
      | none => simp [validMsg, htop] at h
      | some parsed =>
          by_cases h1 : parsed.type = some "transcript"
          · have h2 : ¬ parsed.type = some "tool" := by simp [h1]
            simp [msgTranscriptEntries, msgToolEntries, htop, h1, h2]
          · have h2 : parsed.type = some "tool" := by
              simp [validMsg, htop, h1] at h
              exact h
            simp [msgTranscriptEntries, msgToolEntries, htop, h1, h2]

/-- Over a sequence of valid messages, the collected entries number exactly
the length of the sequence. -/
theorem collect_length (msgs : List (Env × InMsg))
    (h : ∀ em ∈ msgs, validMsg em.2 = true) :
    (collectTranscripts msgs).length + (collectToolEvents msgs).length = msgs.length := by
  induction msgs with
  | nil => simp [collectTranscripts, collectToolEvents]
  | cons em rest ih =>
      have hm : validMsg em.2 = true := h em (List.mem_cons_self em rest)
      have hrest : ∀ x ∈ rest, validMsg x.2 = true :=
        fun x hx => h x (List.mem_cons_of_mem em hx)
      have h1 := validMsg_one_entry em.1 em.2 hm
      have h2 := ih hrest
      simp only [collectTranscripts, collectToolEvents, List.length_append,
        List.length_cons]
      omega

/-! ## Claim theorems -/

/-- C1: for every prior store state and every session record `p`, after
`setSession p` the transcript log is empty, the tool-event log is empty,
the summary is null, the connecting flag is false, and the session
identity fields equal those of `p`. -/
theorem setSession_resets (st : AppState) (p : SessionParams) :
    (setSession st p).transcripts = [] ∧
    (setSession st p).toolEvents = [] ∧
    (setSession st p).summary = none ∧
    (setSession st p).connecting = false ∧
    (setSession st p).token = some p.token ∧
    (setSession st p).identity = some p.identity ∧
    (setSession st p).roomName = some p.roomName ∧
    (setSession st p).livekitUrl = some p.livekitUrl ∧
    (setSession st p).callerPhone = some p.phone := by
  simp [setSession]

/-- C2: for every sequence of valid inbound messages (class-A segments with
non-empty text, class-B transcript/tool messages), running the bridge over
them yields transcript and tool-event logs that together gained exactly one
entry per message, with the prior logs preserved as prefixes and the new
entries appended in delivery order. -/
theorem bridge_append_only (st : AppState) (msgs : List (Env × InMsg))
    (h : ∀ em ∈ msgs, validMsg em.2 = true) :
    ((runMsgs st msgs).transcripts.length + (runMsgs st msgs).toolEvents.length
        = st.transcripts.length + st.toolEvents.length + msgs.length) ∧
    (runMsgs st msgs).transcripts = st.transcripts ++ collectTranscripts msgs ∧
    (runMsgs st msgs).toolEvents = st.toolEvents ++ collectToolEvents msgs := by
  have heq := runMsgs_eq msgs st
  have hlen := collect_length msgs h
  refine ⟨?_, ?_, ?_⟩
  · rw [heq]
    simp only [List.length_append]
    omega
  · rw [heq]
  · rw [heq]

/-- Witness for C2 at a concrete two-message sequence: a class-A segment
with text `"hi"` followed by a class-B tool message. -/
theorem bridge_append_only_witness :
    ((runMsgs initialState
        [(⟨3, "u1", "me"⟩, InMsg.classA { text := some "hi", participantIdentity := some "me" }),
         (⟨4, "u2", "me"⟩, InMsg.classB (some "app.timeline")
            (some { type := some "tool", name := some "book_appointment", call_id := some "c1" }))]).transcripts.length +
      (runMsgs initialState
        [(⟨3, "u1", "me"⟩, InMsg.classA { text := some "hi", participantIdentity := some "me" }),
         (⟨4, "u2", "me"⟩, InMsg.classB (some "app.timeline")
            (some { type := some "tool", name := some "book_appointment", call_id := some "c1" }))]).toolEvents.length
        = initialState.transcripts.length + initialState.toolEvents.length + 2) ∧
    (runMsgs initialState
        [(⟨3, "u1", "me"⟩, InMsg.classA { text := some "hi", participantIdentity := some "me" }),
         (⟨4, "u2", "me"⟩, InMsg.classB (some "app.timeline")
            (some { type := some "tool", name := some "book_appointment", call_id := some "c1" }))]).transcripts
        = initialState.transcripts ++ collectTranscripts
            [(⟨3, "u1", "me"⟩, InMsg.classA { text := some "hi", participantIdentity := some "me" }),
             (⟨4, "u2", "me"⟩, InMsg.classB (some "app.timeline")
                (some { type := some "tool", name := some "book_appointment", call_id := some "c1" }))] ∧
    (runMsgs initialState
        [(⟨3, "u1", "me"⟩, InMsg.classA { text := some "hi", participantIdentity := some "me" }),
         (⟨4, "u2", "me"⟩, InMsg.classB (some "app.timeline")
            (some { type := some "tool", name := some "book_appointment", call_id := some "c1" }))]).toolEvents
        = initialState.toolEvents ++ collectToolEvents
            [(⟨3, "u1", "me"⟩, InMsg.classA { text := some "hi", participantIdentity := some "me" }),
             (⟨4, "u2", "me"⟩, InMsg.classB (some "app.timeline")
                (some { type := some "tool", name := some "book_appointment", call_id := some "c1" }))] :=
  bridge_append_only initialState
    [(⟨3, "u1", "me"⟩, InMsg.classA { text := some "hi", participantIdentity := some "me" }),
     (⟨4, "u2", "me"⟩, InMsg.classB (some "app.timeline")
        (some { type := some "tool", name := some "book_appointment", call_id := some "c1" }))]
    (by
      intro em hm
      simp only [List.mem_cons, List.not_mem_nil, or_false] at hm
      rcases hm with rfl | rfl <;> decide)

/-- C5: a class-B payload whose bytes are not valid UTF-8 JSON
(`body = none`, the case where `JSON.parse` throws) never mutates the
store; `handleData` is a total function (the `try`/`catch` swallows the
parse error), so nothing is raised to the bridge's caller. -/
theorem malformed_payload_dropped (now : Nat) (fresh : String)
    (topic : Option String) (st : AppState) :
    handleData now fresh topic none st = st := by
  simp [handleData, parseAndDispatch]

/-- C6: a class-B payload whose topic does not begin with `"app."`
(including an absent topic) produces no store mutation, whatever the body. -/
theorem non_app_topic_ignored (now : Nat) (fresh : String)
    (topic : Option String) (body : Option ParsedMsg) (st : AppState)
    (h : topicIsApp topic = false) :
    handleData now fresh topic body st = st := by
  simp [handleData, h]

/-- Witness for C6: topic `"other.thing"` with a well-formed transcript
body is ignored. -/
theorem non_app_topic_ignored_witness :
    topicIsApp (some "other.thing") = false ∧
    handleData 0 "u1" (some "other.thing")
        (some { type := some "transcript", text := some "hi" }) initialState
      = initialState :=
  ⟨by decide,
   non_app_topic_ignored 0 "u1" (some "other.thing")
     (some { type := some "transcript", text := some "hi" }) initialState (by decide)⟩

/-- C10: `addTranscript` and `addToolEvent` change only their own log, and
`setSummary` changes only the summary; every other store field is
preserved. -/
theorem log_ops_frame (st : AppState) (e : TranscriptEntry) (ev : ToolEvent)
    (r : Option SummaryRecord) :
    ((addTranscript st e).token = st.token ∧
     (addTranscript st e).identity = st.identity ∧
     (addTranscript st e).roomName = st.roomName ∧
     (addTranscript st e).livekitUrl = st.livekitUrl ∧
     (addTranscript st e).callerPhone = st.callerPhone ∧
     (addTranscript st e).connecting = st.connecting ∧
     (addTranscript st e).summary = st.summary ∧
     (addTranscript st e).toolEvents = st.toolEvents) ∧
    ((addToolEvent st ev).token = st.token ∧
     (addToolEvent st ev).identity = st.identity ∧
     (addToolEvent st ev).roomName = st.roomName ∧
     (addToolEvent st ev).livekitUrl = st.livekitUrl ∧
     (addToolEvent st ev).callerPhone = st.callerPhone ∧
     (addToolEvent st ev).connecting = st.connecting ∧
     (addToolEvent st ev).summary = st.summary ∧
     (addToolEvent st ev).transcripts = st.transcripts) ∧
    ((setSummary st r).token = st.token ∧
     (setSummary st r).identity = st.identity ∧
     (setSummary st r).roomName = st.roomName ∧
     (setSummary st r).livekitUrl = st.livekitUrl ∧
     (setSummary st r).callerPhone = st.callerPhone ∧
     (setSummary st r).connecting = st.connecting ∧
     (setSummary st r).transcripts = st.transcripts ∧
     (setSummary st r).toolEvents = st.toolEvents) := by
  simp [addTranscript, addToolEvent, setSummary]

/-- Every single store operation preserves "token present implies
livekitUrl present": `setSession` sets both, `clearSession` nulls the
token, `setLivekitUrl` only adds the URL, and the rest touch neither. -/
theorem applyOp_token_implies_url (st : AppState) (op : Op)
    (h : st.token.isSome = true → st.livekitUrl.isSome = true) :
    (applyOp st op).token.isSome = true → (applyOp st op).livekitUrl.isSome = true := by
  cases op <;>
    simp_all [applyOp, setLivekitUrl, beginConnect, setSession, clearSession,
      addTranscript, addToolEvent, setSummary]

/-- The one-sided token/URL invariant is preserved by any operation
sequence. -/
theorem runOps_token_implies_url (ops : List Op) (st : AppState)
    (h : st.token.isSome = true → st.livekitUrl.isSome = true) :
    (runOps st ops).token.isSome = true → (runOps st ops).livekitUrl.isSome = true := by
  induction ops generalizing st with
  | nil => exact h
  | cons op rest ih =>
      exact ih (applyOp st op) (applyOp_token_implies_url st op h)

/-- C4 counterexample: the claimed joint-presence invariant fails on the
reachable state produced by the startup config fetch — after
`setLivekitUrl "wss://x"` from the initial state, the connection URL is
present while the token is absent (`clearSession` likewise leaves
`livekitUrl` set while nulling the token). -/
theorem joint_presence_counterexample :
    (runOps initialState [Op.setLivekitUrl "wss://x"]).livekitUrl.isSome = true ∧
    (runOps initialState [Op.setLivekitUrl "wss://x"]).token.isSome = false := by
  decide

/-- C4 amended: in every store state reachable from the initial state, a
present token implies a present livekitUrl (the converse fails: the URL
can be present alone). -/
theorem reachable_token_implies_url (ops : List Op)
    (h : (runOps initialState ops).token.isSome = true) :
    (runOps initialState ops).livekitUrl.isSome = true :=
  runOps_token_implies_url ops initialState (by simp [initialState]) h

/-- Witness for the amended C4 at the sequence `[setSession …]`. -/
theorem reachable_token_implies_url_witness :
    (runOps initialState
        [Op.setSession ⟨"t1", "id1", "r1", "wss://x", "+15555550123"⟩]).livekitUrl.isSome
      = true :=
  reachable_token_implies_url
    [Op.setSession ⟨"t1", "id1", "r1", "wss://x", "+15555550123"⟩] (by decide)

/-- C3 counterexample: with a valid form and a successful session request,
a failing summary fetch leaves the session fully populated and surfaces no
error — `loadLatestSummary` catches the failure itself and only logs a
warning, so `handleConnect`'s catch never runs. -/
theorem summary_failure_keeps_session :
    (handleConnect "Aida QA" "+15555550123" ""
        (Except.ok ⟨"r1", "id1", "t1", 0, "wss://x"⟩)
        (Except.error "summary fetch failed") initialState).store.token = some "t1" ∧
    (handleConnect "Aida QA" "+15555550123" ""
        (Except.ok ⟨"r1", "id1", "t1", 0, "wss://x"⟩)
        (Except.error "summary fetch failed") initialState).store.livekitUrl
      = some "wss://x" ∧
    (handleConnect "Aida QA" "+15555550123" ""
        (Except.ok ⟨"r1", "id1", "t1", 0, "wss://x"⟩)
        (Except.error "summary fetch failed") initialState).uiError = none := by
  decide

/-- C3 amended: a failing form validation surfaces an error and leaves the
store untouched; a failing session request surfaces the error message and
resets the session to empty; but a failing summary fetch after a
successful session request is swallowed — the session stays populated, no
error is surfaced, and only the summary stays null. -/
theorem connect_error_paths (displayName phoneNumber roomName : String)
    (sessionResult : Except String SessionResponse)
    (summariesResult : Except String (List SummaryRecord)) (st : AppState) :
    ((jsTrim displayName = "" ∨ jsTrim phoneNumber = "") →
        handleConnect displayName phoneNumber roomName sessionResult summariesResult st
          = { store := st, uiError := some "Display name and phone are required" }) ∧
    (∀ msg, jsTrim displayName ≠ "" → jsTrim phoneNumber ≠ "" →
        sessionResult = Except.error msg →
        handleConnect displayName phoneNumber roomName sessionResult summariesResult st
          = { store := clearSession (beginConnect st), uiError := some msg }) ∧
    (∀ session err, jsTrim displayName ≠ "" → jsTrim phoneNumber ≠ "" →
        sessionResult = Except.ok session → summariesResult = Except.error err →
        handleConnect displayName phoneNumber roomName sessionResult summariesResult st
          = { store := setSession (beginConnect st)
                { token := session.token
                  identity := session.identity
                  roomName := session.room_name
                  livekitUrl := session.livekit_url
                  phone := jsTrim phoneNumber }
              uiError := none }) := by
  refine ⟨?_, ?_, ?_⟩
  · intro h
    rcases h with h | h <;> simp [handleConnect, h]
  · intro msg h1 h2 h3
    subst h3
    simp [handleConnect, h1, h2]
  · intro session err h1 h2 h3 h4
    subst h3
    subst h4
    simp [handleConnect, loadLatestSummary, h1, h2]

/-- Witness for the amended C3, instantiating all three failure paths at
concrete inputs. -/
theorem connect_error_paths_witness :
    (handleConnect "" "+15555550123" "" (Except.error "e") (Except.error "s") initialState
        = { store := initialState, uiError := some "Display name and phone are required" }) ∧
    (handleConnect "Aida QA" "+15555550123" "" (Except.error "boom") (Except.ok []) initialState
        = { store := clearSession (beginConnect initialState), uiError := some "boom" }) ∧
    (handleConnect "Aida QA" "+15555550123" ""
        (Except.ok ⟨"r1", "id1", "t1", 0, "wss://x"⟩) (Except.error "s") initialState
        = { store := setSession (beginConnect initialState)
              { token := "t1", identity := "id1", roomName := "r1",
                livekitUrl := "wss://x", phone := jsTrim "+15555550123" }
            uiError := none }) :=
  ⟨(connect_error_paths "" "+15555550123" "" (Except.error "e") (Except.error "s")
      initialState).1 (Or.inl (by decide)),
   (connect_error_paths "Aida QA" "+15555550123" "" (Except.error "boom") (Except.ok [])
      initialState).2.1 "boom" (by decide) (by decide) rfl,
   (connect_error_paths "Aida QA" "+15555550123" ""
      (Except.ok ⟨"r1", "id1", "t1", 0, "wss://x"⟩) (Except.error "s")
      initialState).2.2 ⟨"r1", "id1", "t1", 0, "wss://x"⟩ "s" (by decide) (by decide) rfl rfl⟩

/-- C7: a class-A segment with absent or empty text produces no store
mutation, while a class-B `"transcript"` message with absent or empty text
still appends exactly one transcript entry (with empty text) — the
documented asymmetry between the two paths. -/
theorem empty_text_asymmetry :
    (∀ (now : Nat) (fresh localIdentity : String) (seg : Segment) (st : AppState),
        (seg.text = none ∨ seg.text = some "") →
        handleTranscription now fresh localIdentity seg st = st) ∧
    (∀ (now : Nat) (fresh : String) (topic : Option String) (p : ParsedMsg)
        (st : AppState),
        topicIsApp topic = true → p.type = some "transcript" →
        (p.text = none ∨ p.text = some "") →
        handleData now fresh topic (some p) st =
          addTranscript st
            { speaker := p.speaker.getD "assistant"
              text := ""
              timestamp := p.timestamp.getD now
              itemId := p.item_id.getD fresh }) := by
  constructor
  · intro now fresh localIdentity seg st h
    rcases h with h | h <;> simp [handleTranscription, h]
  · intro now fresh topic p st htop hty htext
    have h2 : ¬ p.type = some "tool" := by simp [hty]
    rcases htext with h | h <;>
      simp [handleData, parseAndDispatch, htop, hty, h2, h]

/-- Witness for C7: empty-text class-A segment is dropped; empty-text
class-B transcript message appends one entry. -/
theorem empty_text_asymmetry_witness :
    (handleTranscription 5 "f1" "me" { text := some "" } initialState = initialState) ∧
    (handleData 5 "f1" (some "app.transcript")
        (some { type := some "transcript", text := some "" }) initialState =
      addTranscript initialState
        { speaker := "assistant", text := "", timestamp := 5, itemId := "f1" }) :=
  ⟨empty_text_asymmetry.1 5 "f1" "me" { text := some "" } initialState (Or.inr rfl),
   empty_text_asymmetry.2 5 "f1" (some "app.transcript")
     { type := some "transcript", text := some "" } initialState (by decide) rfl
     (Or.inr rfl)⟩

/-- C8 counterexample: an invalid speaker value outside
`{user, assistant, system}` is NOT defaulted to `"assistant"` —
`parsed.speaker ?? "assistant"` only defaults on null/undefined, so
`"robot"` is passed through into the appended entry. -/
theorem invalid_speaker_passthrough :
    validSpeaker "robot" = false ∧
    (handleData 7 "f1" (some "app.transcript")
        (some { type := some "transcript", speaker := some "robot", text := some "hi" })
        initialState).transcripts.map TranscriptEntry.speaker = ["robot"] := by
  decide

/-- C8 amended: for a class-B `"transcript"` message, the appended entry's
speaker is the payload's speaker whenever one is present (even a value
outside the valid set, passed through unchecked) and `"assistant"` only
when the field is absent; text defaults to `""`, timestamp to the current
time, and item_id to a freshly generated token when absent. -/
theorem classB_transcript_fields (now : Nat) (fresh : String)
    (topic : Option String) (p : ParsedMsg) (st : AppState)
    (htop : topicIsApp topic = true) (hty : p.type = some "transcript") :
    handleData now fresh topic (some p) st =
      addTranscript st
        { speaker := p.speaker.getD "assistant"
          text := p.text.getD ""
          timestamp := p.timestamp.getD now
          itemId := p.item_id.getD fresh } := by
  have h2 : ¬ p.type = some "tool" := by simp [hty]
  simp [handleData, parseAndDispatch, htop, hty, h2]

/-- Witness for the amended C8 at a fully explicit payload. -/
theorem classB_transcript_fields_witness :
    handleData 9 "f2" (some "app.transcript")
        (some { type := some "transcript", speaker := some "user",
                text := some "hello", timestamp := some 42, item_id := some "i9" })
        initialState =
      addTranscript initialState
        { speaker := "user", text := "hello", timestamp := 42, itemId := "i9" } :=
  classB_transcript_fields 9 "f2" (some "app.transcript")
    { type := some "transcript", speaker := some "user", text := some "hello",
      timestamp := some 42, item_id := some "i9" } initialState (by decide) rfl

/-- C9: a non-2xx HTTP response makes `requestSession` fail with an error
carrying the status code (`` `API error ${status}` ``), and it never
returns a session value in that case. -/
theorem requestSession_non2xx (response : HttpResponse SessionResponse)
    (h : responseOk response.status = false) :
    requestSession response
        = Except.error ("API error " ++ toString response.status) ∧
    ∀ s : SessionResponse, requestSession response ≠ Except.ok s := by
  constructor
  · simp [requestSession, apiFetch, h]
  · intro s hcon
    simp [requestSession, apiFetch, h] at hcon

/-- Witness for C9 at an HTTP 500 response. -/
theorem requestSession_non2xx_witness :
    responseOk 500 = false ∧
    requestSession ⟨500, ⟨"r1", "id1", "t1", 0, "wss://x"⟩⟩
        = Except.error ("API error " ++ toString 500) ∧
    requestSession ⟨500, ⟨"r1", "id1", "t1", 0, "wss://x"⟩⟩
        ≠ Except.ok ⟨"r1", "id1", "t1", 0, "wss://x"⟩ :=
  ⟨by decide,
   (requestSession_non2xx ⟨500, ⟨"r1", "id1", "t1", 0, "wss://x"⟩⟩ (by decide)).1,
   (requestSession_non2xx ⟨500, ⟨"r1", "id1", "t1", 0, "wss://x"⟩⟩ (by decide)).2
     ⟨"r1", "id1", "t1", 0, "wss://x"⟩⟩


